import Mathlib

/-!
Verification development for the `talon_ui_helper` repository.

The Python sources are embedded shallowly:

* `mouse_helper.py` — `mouse_helper_move_image_relative`: sorting of template
  matches, the `"mouse"`/`"mouse_cycle"` disambiguators and the integer-index
  disambiguator, and the final pointer target computation.
* `overlays.py` — the screenshot-overlay machinery: the canvas-calibration
  handler (`_calculate_rect_handler`), the result-callback life cycle
  (`_key_event` / `_focus_event` / the 1-second arming check), keyboard
  resize nudges (`BoxSelectorOverlay._key_event`), region normalisation
  (`_get_region`), cropping (`_get_cropped_image`), the self-match settle
  handler (`ImageSelectorOverlay._selection_settled`) and the result-index
  computation (`ImageSelectorOverlay._calculate_result`).

Machine coordinates are modelled as unbounded `Int` (Python integers do not
overflow); sizes of image rectangles coming from the locate API are modelled
as `Nat`.  Fallible code is modelled with `Option` where a dropped `none`
models an uncaught Python exception; each definition's doc comment says which
lines of the source it embeds.
-/

/-- A rectangle returned by `talon.experimental.locate.locate`: a candidate
match of the template.  Only `x`, `y`, `width`, `height` are consulted by
`mouse_helper.py`. -/
structure MatchRect where
  x : Int
  y : Int
  width : Nat
  height : Nat
deriving DecidableEq, Repr

/-- The sort key of `mouse_helper.py` line 174: `key=lambda m: (m.x, m.y)`,
compared as Python tuples, i.e. lexicographically with `x` first. -/
def xyLe (a b : MatchRect) : Prop :=
  a.x < b.x ∨ (a.x = b.x ∧ a.y ≤ b.y)

instance : DecidableRel xyLe := fun a b => by
  unfold xyLe; exact inferInstance

/-- Reading order on match rectangles: top-to-bottom then left-to-right,
i.e. lexicographic with `y` first.  This is the order the specification
ascribes to the match list; it is not the order the code uses. -/
def readingLe (a b : MatchRect) : Prop :=
  a.y < b.y ∨ (a.y = b.y ∧ a.x ≤ b.x)

instance : DecidableRel readingLe := fun a b => by
  unfold readingLe; exact inferInstance

instance : IsTotal MatchRect xyLe :=
  ⟨by intro a b; unfold xyLe; omega⟩

instance : IsTrans MatchRect xyLe :=
  ⟨by intro a b c; unfold xyLe; omega⟩

instance : IsRefl MatchRect xyLe :=
  ⟨by intro a; unfold xyLe; omega⟩

/-- Lines 172–175 of `mouse_helper.py`:
`sorted_matches = sorted(matches, key=lambda m: (m.x, m.y))`.
Python's `sorted` is a stable sort; a stable sort's output is uniquely
determined by the key order and the input order, so the stable
`List.insertionSort` computes the same list. -/
def sortMatches (ms : List MatchRect) : List MatchRect :=
  ms.insertionSort xyLe

/-- Outcome of one invocation of `mouse_helper_move_image_relative` after the
match list is known: either the function returns without calling
`actions.mouse_move` (`noMove`), or it moves the pointer to concrete
coordinates (`moveTo`), or it raises an uncaught `IndexError` while indexing
the match list (`indexError`). -/
inductive MoveOutcome where
  | noMove
  | moveTo (x y : Int)
  | indexError
deriving DecidableEq, Repr

/-- Final pointer target, lines 203–206 of `mouse_helper.py`:
`math.ceil(rect.x + match_rect.x + (match_rect.width / 2) + xoffset)` (and the
same for `y`).  For integer `a` and `w : Nat`,
`ceil (a + w / 2) = a + (w + 1) / 2` in integer arithmetic, which is used
here to stay in `Int`. -/
def matchTarget (rectX rectY xoffset yoffset : Int) (m : MatchRect) : Int × Int :=
  (rectX + m.x + (((m.width + 1) / 2 : Nat) : Int) + xoffset,
   rectY + m.y + (((m.height + 1) / 2 : Nat) : Int) + yoffset)

/-- The filter predicate of lines 184–188 of `mouse_helper.py`: a match
qualifies when its top-left corner is strictly after the reference point
`(xnorm, ynorm)` in reading order. -/
def afterRef (xnorm ynorm : Int) (m : MatchRect) : Bool :=
  decide ((m.y = ynorm ∧ m.x > xnorm) ∨ m.y > ynorm)

/-- Lines 182–192 of `mouse_helper.py`: the reference point and the filtered
match list of the `"mouse"` / `"mouse_cycle"` disambiguators, returning
`filtered_matches[0]` when any match qualifies.
`math.ceil(actions.mouse_x() - xoffset - sorted_matches[0].width / 2)` is,
for integer mouse coordinates and offsets, equal to
`mouse_x - xoffset - width / 2` with flooring natural division, because
`ceil (a - w / 2) = a - w / 2` for `a : Int`, `w : Nat`. -/
def mouseSelect (ms : List MatchRect) (mouseX mouseY xoffset yoffset : Int) :
    Option MatchRect :=
  match sortMatches ms with
  | [] => none
  | m0 :: _ =>
    let xnorm := mouseX - xoffset - ((m0.width / 2 : Nat) : Int)
    let ynorm := mouseY - yoffset - ((m0.height / 2 : Nat) : Int)
    ((sortMatches ms).filter (afterRef xnorm ynorm)).head?

/-- The `"mouse"` / `"mouse_cycle"` branch of
`mouse_helper_move_image_relative`, lines 180–196 and 203–206 of
`mouse_helper.py`.  `cycle` distinguishes `"mouse_cycle"` from `"mouse"`.
The empty-list case corresponds to the `len(sorted_matches) == 0` early
return on line 177. -/
def mouseDisambiguate (cycle : Bool) (ms : List MatchRect)
    (mouseX mouseY xoffset yoffset rectX rectY : Int) : MoveOutcome :=
  match sortMatches ms with
  | [] => .noMove
  | m0 :: _ =>
    match mouseSelect ms mouseX mouseY xoffset yoffset with
    | some m =>
      .moveTo (matchTarget rectX rectY xoffset yoffset m).1
              (matchTarget rectX rectY xoffset yoffset m).2
    | none =>
      if cycle then
        .moveTo (matchTarget rectX rectY xoffset yoffset m0).1
                (matchTarget rectX rectY xoffset yoffset m0).2
      else .noMove

/-- Python list indexing `l[i]` for a possibly negative `i`:
`some` of the selected element, or `none` when Python would raise
`IndexError`. -/
def pyListGet (l : List α) (i : Int) : Option α :=
  if 0 ≤ i then l[i.toNat]?
  else
    let j : Int := (l.length : Int) + i
    if 0 ≤ j then l[j.toNat]? else none

/-- The integer-disambiguator path of `mouse_helper_move_image_relative`:
the `if len(sorted_matches) == 0: return` early return of
`mouse_helper.py` line 177, then lines 197–206: `if len(matches) <=
disambiguator: return` and `sorted_matches[disambiguator]` with Python
indexing semantics, followed by the pointer move.  An out-of-bounds
negative index on a non-empty list raises `IndexError` (`.indexError`);
the guard only catches large non-negative indices. -/
def indexDisambiguate (ms : List MatchRect)
    (d xoffset yoffset rectX rectY : Int) : MoveOutcome :=
  let sorted := sortMatches ms
  if sorted.length = 0 then .noMove
  else if (ms.length : Int) ≤ d then .noMove
  else
    match pyListGet sorted d with
    | some m =>
      .moveTo (matchTarget rectX rectY xoffset yoffset m).1
              (matchTarget rectX rectY xoffset yoffset m).2
    | none => .indexError

/-- The `talon.types.Rect` values manipulated by `overlays.py`, with integer
fields (keyboard-created and normalised regions are integral; `_get_region`
applies `int(...)` to every field). -/
structure TalonRect where
  x : Int
  y : Int
  width : Int
  height : Int
deriving DecidableEq, Repr

/-- `BoxSelectorOverlay._get_region`, lines 316–343 of `overlays.py`, on a
present region: flip the origin along any axis whose extent is negative so
that width and height come out non-negative.  The `int(...)` casts are the
identity on the integer-valued rectangles modelled here. -/
def getRegion (r : TalonRect) : TalonRect :=
  let xw := if r.width < 0 then (r.x + r.width, -r.width) else (r.x, r.width)
  let yh := if r.height < 0 then (r.y + r.height, -r.height) else (r.y, r.height)
  ⟨xw.1, yh.1, xw.2, yh.2⟩

/-- Python slicing `l[a:b]` for natural bounds: take the first `b` elements,
then drop the first `a`.  This agrees with both Python list slicing and
numpy axis slicing for non-negative in-order bounds (slices clamp at the
length instead of raising). -/
def listSlice (l : List α) (a b : Nat) : List α :=
  (l.take b).drop a

/-- The body of the `for idx, is_background in enumerate(background_items)`
loop of `_calculate_bounds` (lines 129–134 of `overlays.py`), carrying the
running index and the `bg_start` / `bg_end` accumulators (`none` is Python's
`None`). -/
def calcBoundsLoop : Nat → Option Nat → Option Nat → List Bool → Option Nat × Option Nat
  | _, bgStart, bgEnd, [] => (bgStart, bgEnd)
  | idx, bgStart, bgEnd, b :: rest =>
    if b then
      calcBoundsLoop (idx + 1)
        (some (match bgStart with | none => idx | some s => min idx s))
        (some (match bgEnd with | none => idx | some e => max idx e))
        rest
    else calcBoundsLoop (idx + 1) bgStart bgEnd rest

/-- `_calculate_bounds` of `overlays.py` (lines 124–135) applied to the
already-reduced boolean vector: returns `(bg_start, bg_end + 1)`.  When the
vector contains no `true`, the Python code leaves `bg_end` as `None` and
evaluates `None + 1`, raising `TypeError`; that raise is modelled by
`none`. -/
def calculateBounds (items : List Bool) : Option (Nat × Nat) :=
  match calcBoundsLoop 0 none none items with
  | (some s, some e) => some (s, e + 1)
  | _ => none

/-- `np.any(mask, axis=1)`: one boolean per row of the mask. -/
def anyRow (mask : List (List Bool)) : List Bool :=
  mask.map (fun row => row.any id)

/-- The number of columns of a (rectangular) mask. -/
def numCols (mask : List (List Bool)) : Nat :=
  (mask.head?.map List.length).getD 0

/-- `np.any(mask, axis=0)`: one boolean per column of the mask. -/
def anyCol (mask : List (List Bool)) : List Bool :=
  (List.range (numCols mask)).map (fun j => mask.any (fun row => row.getD j false))

/-- The non-Windows path of `ScreenshotOverlay._calculate_rect_handler`
(lines 113–148 of `overlays.py`) applied to the sentinel-colour mask of the
captured screenshot: row bounds over `np.any(mask, axis=1)`, column bounds
over `np.any(mask[row_start:row_end], axis=0)`, and the resulting canvas
rectangle.  `none` models the `TypeError` raised inside `_calculate_bounds`
when the sentinel colour is absent. -/
def calibrationRect (mask : List (List Bool)) : Option TalonRect :=
  match calculateBounds (anyRow mask) with
  | none => none
  | some (rowStart, rowEnd) =>
    match calculateBounds (anyCol (listSlice mask rowStart rowEnd)) with
    | none => none
    | some (colStart, colEnd) =>
      some ⟨(colStart : Int), (rowStart : Int),
            (colEnd : Int) - (colStart : Int), (rowEnd : Int) - (rowStart : Int)⟩

/-- The observable outcome of `_calculate_rect_handler` (lines 105–152 of
`overlays.py`): the final canvas rectangle paired with whether
`calculate_rect_state` became `"normal"`.  On Windows the handler keeps the
current canvas rectangle and goes straight to the normal state; elsewhere it
sets the rectangle computed from the mask.  `none` models the handler dying
with the `TypeError` of `_calculate_bounds`: the canvas rectangle is never
assigned and the state never becomes `"normal"`. -/
def calcRectHandlerOutcome (platformWindows : Bool) (mask : List (List Bool))
    (canvasRect : TalonRect) : Option (TalonRect × Bool) :=
  if platformWindows then some (canvasRect, true)
  else (calibrationRect mask).map (fun r => (r, true))

/-- Events delivered to a `ScreenshotOverlay` that can close it or fire its
result callback: the one-shot 1-second arming check registered in
`__init__` (lines 63–69 of `overlays.py`, with the canvas focus state it
observes), a focus event (`_focus_event`, lines 258–261) and a key event
(`_key_event`, lines 263–274). -/
inductive OverlayEvent where
  | armCheck (focused : Bool)
  | focusEvent (focused : Bool)
  | keyEvent (down : Bool) (key : String)
deriving DecidableEq, Repr

/-- The callback-relevant state of a `ScreenshotOverlay`: whether
`self.can.close()` has run, the `unfocus_destroy_enabled` flag, and how many
times `self.result_handler` has been invoked. -/
structure OverlayState where
  closed : Bool
  unfocusDestroyEnabled : Bool
  callbackCount : Nat
deriving DecidableEq, Repr

/-- Overlay state right after `__init__`. -/
def initOverlay : OverlayState := ⟨false, false, 0⟩

/-- Line 268 of `overlays.py`: `evt.key in ("Escape", "esc")`. -/
def isEscapeKey (k : String) : Bool := decide (k = "Escape" ∨ k = "esc")

/-- Line 272 of `overlays.py`: `evt.key in ("Return", "return", "Enter")`. -/
def isEnterKey (k : String) : Bool := decide (k = "Return" ∨ k = "return" ∨ k = "Enter")

/-- One event step of the overlay life cycle.  A closed canvas delivers no
further events and re-destroying it changes nothing, so every event is a
no-op once `closed` holds.  The arming check destroys an unfocused overlay
WITHOUT calling the result handler (line 66 of `overlays.py`); the focus and
key handlers destroy and then call the handler exactly once.  The Escape and
Enter key sets are disjoint, so the two `if` statements of `_key_event`
cannot both fire for one event. -/
def overlayStep (s : OverlayState) (e : OverlayEvent) : OverlayState :=
  if s.closed then s
  else
    match e with
    | .armCheck focused =>
      if focused then { s with unfocusDestroyEnabled := true }
      else { s with closed := true }
    | .focusEvent focused =>
      if !focused && s.unfocusDestroyEnabled then
        { s with closed := true, callbackCount := s.callbackCount + 1 }
      else s
    | .keyEvent down key =>
      if down then s
      else if isEscapeKey key then
        { s with closed := true, callbackCount := s.callbackCount + 1 }
      else if isEnterKey key then
        { s with closed := true, callbackCount := s.callbackCount + 1 }
      else s

/-- Run an overlay instance through a finite sequence of events. -/
def runOverlay (events : List OverlayEvent) : OverlayState :=
  events.foldl overlayStep initOverlay

/-- Axis selector for keyboard nudges: `("x", "width")` or
`("y", "height")`. -/
inductive NudgeAxis where
  | horiz
  | vert
deriving DecidableEq, Repr

/-- Line 446–447 of `overlays.py`: the nudge magnitude is 25 with Shift and
1 without, negated for left/up keys. -/
def nudgeMagnitude (shift negativeDir : Bool) : Int :=
  let m : Int := if shift then 25 else 1
  if negativeDir then -m else m

/-- One axis of the bounds-correction loop of
`BoxSelectorOverlay._key_event`, lines 460–476 of `overlays.py`.
`curr_extent` is computed from the position BEFORE the two position clamps,
while the final extent clamp subtracts the position AFTER them, exactly as
the Python attribute reads and writes interleave. -/
def clampAxis (minPos maxPos pos scale : Int) : Int × Int :=
  let currExtent := pos + scale
  let pos1 := if pos < minPos then minPos else pos
  let pos2 := if pos1 > maxPos then maxPos - 1 else pos1
  let scale1 := if currExtent > maxPos then maxPos - pos2 else scale
  (pos2, scale1)

/-- The whole bounds-correction loop (both axes) against the canvas
rectangle. -/
def boundsCorrect (canvas r : TalonRect) : TalonRect :=
  let xw := clampAxis canvas.x (canvas.x + canvas.width) r.x r.width
  let yh := clampAxis canvas.y (canvas.y + canvas.height) r.y r.height
  ⟨xw.1, yh.1, xw.2, yh.2⟩

/-- The Ctrl branch of `BoxSelectorOverlay._key_event` (lines 449–453 of
`overlays.py`) followed by the bounds correction: `new_val = curr +
magnitude; new_val = new_val if new_val >= 0 else 1` applied to the width or
height selected by the arrow key. -/
def ctrlResize (canvas r : TalonRect) (axis : NudgeAxis) (magnitude : Int) : TalonRect :=
  let r1 :=
    match axis with
    | .horiz =>
      let nv := r.width + magnitude
      { r with width := if 0 ≤ nv then nv else 1 }
    | .vert =>
      let nv := r.height + magnitude
      { r with height := if 0 ≤ nv then nv else 1 }
  boundsCorrect canvas r1

/-- The non-Ctrl branch of the same key handler (lines 455–458 of
`overlays.py`): move the origin, clamping negatives to 0, then apply the
bounds correction. -/
def arrowMove (canvas r : TalonRect) (axis : NudgeAxis) (magnitude : Int) : TalonRect :=
  let r1 :=
    match axis with
    | .horiz =>
      let nv := r.x + magnitude
      { r with x := if 0 ≤ nv then nv else 0 }
    | .vert =>
      let nv := r.y + magnitude
      { r with y := if 0 ≤ nv then nv else 0 }
  boundsCorrect canvas r1

/-- `BoxSelectorOverlay._get_cropped_image`, lines 377–392 of `overlays.py`.
Pixels are abstracted to `Nat`; the screenshot is a list of rows.  The numpy
slice `np.array(self.image)[y : y + h, x : x + w]` is modelled with
`listSlice` (valid for the non-negative bounds produced by normalised
regions).  The Python code checks only `len(arr) == 0`, i.e. whether the ROW
slice is empty; an empty COLUMN slice with non-empty rows still builds an
image. -/
def getCroppedImage (img : List (List Nat)) (hlRegion : Option TalonRect) :
    Option (List (List Nat)) :=
  match hlRegion with
  | none => none
  | some hr =>
    let region := getRegion hr
    let arr := (listSlice img region.y.toNat (region.y + region.height).toNat).map
      (fun row => listSlice row region.x.toNat (region.x + region.width).toNat)
    if arr.length = 0 then none else some arr

/-- `ImageSelectorOverlay._find_matches`, lines 580–599 of `overlays.py`.
The external `locate.locate_in_image` call is a parameter; the repository
code contributes the `None` short-circuit that yields an empty result
list. -/
def findMatches (locateInImage : List (List Nat) → List (List Nat) → List TalonRect)
    (img : List (List Nat)) (hlRegion : Option TalonRect) : List TalonRect :=
  match getCroppedImage img hlRegion with
  | none => []
  | some cropped => locateInImage img cropped

/-- The state of an `ImageSelectorOverlay` touched by `_selection_settled`
and consulted by `_draw_widgets` and `_calculate_result`. -/
structure ImageOverlayState where
  hlRegion : Option TalonRect
  resultRects : List TalonRect
  flashText : Option String
  closed : Bool
deriving DecidableEq, Repr

/-- `ImageSelectorOverlay._selection_settled`, lines 527–543 of
`overlays.py`.  `finished = false` merely clears the stored rectangles.
Otherwise the worker thread runs `_find_matches`; `timedOut` tells whether
the 1-second join expired (in which case the stored rectangles are whatever
they were before), and `found` is the rectangle list the completed search
assigned.  A timeout or more than 20 stored matches discards the results and
shows the flash message. -/
def selectionSettled (s : ImageOverlayState) (finished timedOut : Bool)
    (found : List TalonRect) : ImageOverlayState :=
  if finished = false then { s with resultRects := [] }
  else
    let s1 := if timedOut then s else { s with resultRects := found }
    if timedOut || decide (s1.resultRects.length > 20) then
      { s1 with
        flashText := some "Too many matches, not showing any of them",
        resultRects := [] }
    else s1

/-- Whether `ImageSelectorOverlay._draw_widgets` (lines 545–552 of
`overlays.py`) draws any match highlight: it returns early without a
region and draws matches only when `len(self.result_rects) > 0`. -/
def drawsMatchHighlights (s : ImageOverlayState) : Bool :=
  s.hlRegion.isSome && !s.resultRects.isEmpty

/-- The loop of `ImageSelectorOverlay._calculate_result`, lines 514–517 of
`overlays.py`: `index = 0; for i, rect in enumerate(self.result_rects): if
rect == region: index = i`, carried with the running enumeration index and
the accumulator. -/
def calcIndexLoop : List TalonRect → TalonRect → Nat → Nat → Nat
  | [], _, _, acc => acc
  | r :: rs, region, i, acc =>
    calcIndexLoop rs region (i + 1) (if r = region then i else acc)

/-- The `index` field of the result emitted by
`ImageSelectorOverlay._calculate_result` (lines 503–523 of `overlays.py`),
as a function of the stored self-match rectangles and the normalised
region. -/
def calcResultIndex (resultRects : List TalonRect) (region : TalonRect) : Nat :=
  calcIndexLoop resultRects region 0 0

/-- The dimension (width or height) a keyboard nudge axis acts on. -/
def affectedDim (axis : NudgeAxis) (r : TalonRect) : Int :=
  match axis with
  | .horiz => r.width
  | .vert => r.height

/-- C9: `_get_region` normalisation is idempotent and sign-correcting: for
every rectangle, normalising twice equals normalising once, the result has
non-negative width and height, its area is the absolute area `|w|·|h|` of the
input, and the origin is flipped along exactly the axes whose extent was
negative. -/
theorem c9_normalize_idempotent_sign_correcting (r : TalonRect) :
    getRegion (getRegion r) = getRegion r ∧
    0 ≤ (getRegion r).width ∧ 0 ≤ (getRegion r).height ∧
    (getRegion r).width * (getRegion r).height = |r.width| * |r.height| ∧
    (getRegion r).x = (if r.width < 0 then r.x + r.width else r.x) ∧
    (getRegion r).y = (if r.height < 0 then r.y + r.height else r.y) := by
  obtain ⟨x, y, w, h⟩ := r
  by_cases hw : w < 0 <;> by_cases hh : h < 0
  · have hw' : ¬(-w < 0) := by omega
    have hh' : ¬(-h < 0) := by omega
    simp only [getRegion, if_pos hw, if_pos hh, if_neg hw', if_neg hh']
    refine ⟨trivial, by omega, by omega, ?_, trivial, trivial⟩
    rw [abs_of_neg hw, abs_of_neg hh]
  · have hw' : ¬(-w < 0) := by omega
    simp only [getRegion, if_pos hw, if_neg hh, if_neg hw']
    refine ⟨trivial, by omega, by omega, ?_, trivial, trivial⟩
    rw [abs_of_neg hw, abs_of_nonneg (by omega : (0:Int) ≤ h)]
  · have hh' : ¬(-h < 0) := by omega
    simp only [getRegion, if_neg hw, if_pos hh, if_neg hh']
    refine ⟨trivial, by omega, by omega, ?_, trivial, trivial⟩
    rw [abs_of_nonneg (by omega : (0:Int) ≤ w), abs_of_neg hh]
  · simp only [getRegion, if_neg hw, if_neg hh]
    refine ⟨trivial, by omega, by omega, ?_, trivial, trivial⟩
    rw [abs_of_nonneg (by omega : (0:Int) ≤ w), abs_of_nonneg (by omega : (0:Int) ≤ h)]

/-- C6 counterexample: with the canvas at (0,0,100,100) and the selection at
(10,10) with width 1 and height 5, a plain Ctrl+Left nudge (magnitude −1)
leaves width 0: the code keeps any non-negative result, so the claimed 1px
minimum is violated. -/
theorem c6_zero_width_reachable :
    ctrlResize ⟨0, 0, 100, 100⟩ ⟨10, 10, 1, 5⟩ .horiz (nudgeMagnitude false true) =
      ⟨10, 10, 0, 5⟩ ∧
    ¬ (1 ≤ (ctrlResize ⟨0, 0, 100, 100⟩ ⟨10, 10, 1, 5⟩ .horiz
        (nudgeMagnitude false true)).width) := by
  decide

/-- C6 (amended): a Ctrl resize nudge clamps only negative results (to 1px);
a result of exactly 0 is kept, so all that holds is that the affected
dimension is at least 0 after the nudge — the bounds correction can only
replace it by a value of the form `max_pos - pos` with `pos ≤ max_pos`,
which is also non-negative. -/
theorem c6_ctrl_resize_dimension_nonneg (canvas r : TalonRect) (axis : NudgeAxis)
    (magnitude : Int) :
    0 ≤ affectedDim axis (ctrlResize canvas r axis magnitude) := by
  cases axis <;>
    simp only [affectedDim, ctrlResize, boundsCorrect, clampAxis] <;>
    split_ifs <;> omega

/-- C1 counterexample: on the match list [(30,5), (1,50)] (10×10 matches) the
code's `sorted(matches, key=lambda m: (m.x, m.y))` yields [(1,50), (30,5)],
which is not ordered by ascending (y, x): reading order would demand (30,5)
first. -/
theorem c1_not_reading_order_at_input :
    sortMatches [⟨30, 5, 10, 10⟩, ⟨1, 50, 10, 10⟩] =
      [⟨1, 50, 10, 10⟩, ⟨30, 5, 10, 10⟩] ∧
    ¬ List.Pairwise readingLe (sortMatches [⟨30, 5, 10, 10⟩, ⟨1, 50, 10, 10⟩]) := by
  decide

/-- C1 (amended): the list of matches used for disambiguation is the input
match list sorted ascending by the (x, y) tuple of each match's top-left
corner — left-to-right first, top-to-bottom second — not by (y, x) reading
order. -/
theorem c1_matches_sorted_by_x_then_y (ms : List MatchRect) :
    List.Pairwise xyLe (sortMatches ms) ∧ (sortMatches ms).Perm ms := by
  exact ⟨List.sorted_insertionSort xyLe ms, List.perm_insertionSort xyLe ms⟩

/-- C7: a finished settle notification whose non-timed-out self-match search
returned more than 20 rectangles is discarded end-to-end: the stored
rectangles are emptied, the flash message is set, the overlay stays in its
previous open/closed state, no match highlight is drawn, and the result
index computed from the stored rectangles is 0 for every region. -/
theorem c7_guardrail_discards_end_to_end (s : ImageOverlayState)
    (found : List TalonRect) (h : 20 < found.length) :
    (selectionSettled s true false found).resultRects = [] ∧
    (selectionSettled s true false found).flashText =
      some "Too many matches, not showing any of them" ∧
    (selectionSettled s true false found).closed = s.closed ∧
    drawsMatchHighlights (selectionSettled s true false found) = false ∧
    ∀ region : TalonRect,
      calcResultIndex (selectionSettled s true false found).resultRects region = 0 := by
  unfold selectionSettled
  simp [h, drawsMatchHighlights, calcResultIndex, calcIndexLoop]

/-- C7 witness: concrete instance — 21 identical matches against the
threshold of 20 are discarded. -/
theorem c7_witness :
    (selectionSettled ⟨some ⟨0, 0, 5, 5⟩, [], none, false⟩ true false
      (List.replicate 21 ⟨0, 0, 5, 5⟩)).resultRects = [] :=
  (c7_guardrail_discards_end_to_end _ _ (by decide)).1

/-- The bounds loop leaves its accumulators untouched on an all-`false`
vector. -/
theorem calcBoundsLoop_all_false :
    ∀ (items : List Bool), (∀ b ∈ items, b = false) →
      ∀ (idx : Nat) (bgS bgE : Option Nat),
        calcBoundsLoop idx bgS bgE items = (bgS, bgE) := by
  intro items
  induction items with
  | nil => intro _ idx bgS bgE; rfl
  | cons b rest ih =>
    intro h idx bgS bgE
    have hb : b = false := h b (List.mem_cons_self b rest)
    have hrest : ∀ x ∈ rest, x = false := fun x hx => h x (List.mem_cons_of_mem b hx)
    simp only [calcBoundsLoop, hb, if_neg Bool.false_ne_true]
    exact ih hrest (idx + 1) bgS bgE

/-- C5 counterexample: on a 2×2 screenshot containing no sentinel pixel the
calibration handler dies in `_calculate_bounds` (`None + 1` raises
`TypeError`, modelled by `none`), so it does NOT produce the claimed
fallback outcome in which the canvas keeps its nominal rectangle and the
state becomes `"normal"`. -/
theorem c5_no_fallback_at_empty_mask :
    calcRectHandlerOutcome false [[false, false], [false, false]] ⟨0, 0, 2, 2⟩ = none ∧
    (none : Option (TalonRect × Bool)) ≠ some (⟨0, 0, 2, 2⟩, true) := by
  decide

/-- C5 (amended): when no pixel of the sentinel colour occurs in the
captured mask, the non-Windows calibration handler raises (`TypeError` from
`bg_end + 1` on `None`): the canvas rectangle is never reassigned and
`calculate_rect_state` never becomes `"normal"`, modelled by the handler
outcome being `none` instead of any rectangle/state pair. -/
theorem c5_no_sentinel_raises (mask : List (List Bool)) (canvasRect : TalonRect)
    (h : ∀ row ∈ mask, ∀ b ∈ row, b = false) :
    calcRectHandlerOutcome false mask canvasRect = none := by
  have hrows : ∀ b ∈ anyRow mask, b = false := by
    intro b hb
    obtain ⟨row, hrow, rfl⟩ := List.mem_map.mp hb
    rw [List.any_eq_false]
    intro x hx
    simp [h row hrow x hx]
  unfold calcRectHandlerOutcome calibrationRect calculateBounds
  rw [calcBoundsLoop_all_false (anyRow mask) hrows 0 none none]
  simp

/-- C5 witness: the amended statement applied to a concrete 1×1 all-black
mask. -/
theorem c5_witness :
    calcRectHandlerOutcome false [[false]] ⟨0, 0, 1, 1⟩ = none :=
  c5_no_sentinel_raises [[false]] ⟨0, 0, 1, 1⟩ (by decide)

/-- The result-index loop returns its accumulator when the region occurs
nowhere in the remaining rectangles. -/
theorem calcIndexLoop_not_mem (region : TalonRect) :
    ∀ (l : List TalonRect), region ∉ l →
      ∀ (i acc : Nat), calcIndexLoop l region i acc = acc := by
  intro l
  induction l with
  | nil => intro _ i acc; rfl
  | cons r rs ih =>
    intro h i acc
    have hr : ¬(r = region) := fun he => h (by simp [he])
    have hrs : region ∉ rs := fun hm => h (List.mem_cons_of_mem r hm)
    simp only [calcIndexLoop, if_neg hr]
    exact ih hrs (i + 1) acc

/-- When the region occurs in the rectangle list, the result-index loop
computes (relative to its starting enumeration index) the position of the
LAST occurrence, regardless of the accumulator. -/
theorem calcIndexLoop_mem (region : TalonRect) :
    ∀ (l : List TalonRect), region ∈ l →
      ∃ k, k < l.length ∧ l[k]? = some region ∧
        (∀ j, k < j → l[j]? ≠ some region) ∧
        ∀ (i acc : Nat), calcIndexLoop l region i acc = i + k := by
  intro l
  induction l with
  | nil => intro h; exact absurd h (List.not_mem_nil region)
  | cons r rs ih =>
    intro h
    by_cases hmem : region ∈ rs
    · obtain ⟨k, hk, hget, hlast, hloop⟩ := ih hmem
      refine ⟨k + 1, by simpa using hk, by simpa using hget, ?_, ?_⟩
      · intro j hj
        match j, hj with
        | j + 1, hj => simpa using hlast j (by omega)
      · intro i acc
        simp only [calcIndexLoop]
        rw [hloop (i + 1) (if r = region then i else acc)]
        omega
    · have hr : r = region := by
        rcases List.mem_cons.mp h with h' | h'
        · exact h'.symm
        · exact absurd h' hmem
      refine ⟨0, by simp, by simp [hr], ?_, ?_⟩
      · intro j hj
        match j, hj with
        | j + 1, _ =>
          simp only [List.getElem?_cons_succ]
          intro hs
          exact hmem (by
            rcases List.getElem?_eq_some_iff.mp hs with ⟨hlt, heq⟩
            exact heq ▸ List.getElem_mem hlt)
      · intro i acc
        simp only [calcIndexLoop, if_pos hr]
        rw [calcIndexLoop_not_mem region rs hmem (i + 1) i]
        omega

/-- C10: the `index` field computed by
`ImageSelectorOverlay._calculate_result` is the position of the last stored
self-match rectangle equal to the normalised region, and 0 when no stored
rectangle equals it (in particular when the stored list is empty after a
discard). -/
theorem c10_result_index_last_equal_or_zero (rects : List TalonRect)
    (region : TalonRect) :
    (region ∉ rects → calcResultIndex rects region = 0) ∧
    (region ∈ rects →
      rects[calcResultIndex rects region]? = some region ∧
      ∀ j, calcResultIndex rects region < j → rects[j]? ≠ some region) := by
  constructor
  · intro h
    exact calcIndexLoop_not_mem region rects h 0 0
  · intro h
    obtain ⟨k, hk, hget, hlast, hloop⟩ := calcIndexLoop_mem region rects h
    have : calcResultIndex rects region = k := by
      unfold calcResultIndex
      rw [hloop 0 0]
      omega
    rw [this]
    exact ⟨hget, hlast⟩

/-- C10 witness: for the stored rectangles [A, B, A] and region A the index
is the last occurrence; for a list not containing the region it is 0. -/
theorem c10_witness :
    calcResultIndex [⟨9, 9, 1, 1⟩] ⟨0, 0, 1, 1⟩ = 0 ∧
    ([⟨0, 0, 1, 1⟩, ⟨2, 2, 1, 1⟩, ⟨0, 0, 1, 1⟩] :
        List TalonRect)[calcResultIndex
          [⟨0, 0, 1, 1⟩, ⟨2, 2, 1, 1⟩, ⟨0, 0, 1, 1⟩] ⟨0, 0, 1, 1⟩]? =
      some ⟨0, 0, 1, 1⟩ :=
  ⟨(c10_result_index_last_equal_or_zero [⟨9, 9, 1, 1⟩] ⟨0, 0, 1, 1⟩).1 (by decide),
   ((c10_result_index_last_equal_or_zero
      [⟨0, 0, 1, 1⟩, ⟨2, 2, 1, 1⟩, ⟨0, 0, 1, 1⟩] ⟨0, 0, 1, 1⟩).2 (by decide)).1⟩

/-- Every run of the overlay event machine fires the result callback at most
once, and an overlay that is still open has fired it zero times. -/
theorem overlayRun_at_most_once :
    ∀ (events : List OverlayEvent) (s : OverlayState),
      s.callbackCount ≤ 1 → (s.closed = false → s.callbackCount = 0) →
      (events.foldl overlayStep s).callbackCount ≤ 1 ∧
        ((events.foldl overlayStep s).closed = false →
          (events.foldl overlayStep s).callbackCount = 0) := by
  intro events
  induction events with
  | nil => intro s h1 h2; exact ⟨h1, h2⟩
  | cons e rest ih =>
    intro s h1 h2
    refine ih (overlayStep s e) ?_ ?_
    · by_cases hc : s.closed
      · simp [overlayStep, hc, h1]
      · have h0 := h2 (by simp [hc])
        cases e <;> simp [overlayStep, hc, h0] <;> split_ifs <;> simp [h0]
    · by_cases hc : s.closed
      · intro h
        simp only [overlayStep, if_pos hc] at h ⊢
        exact h2 h
      · have h0 := h2 (by simp [hc])
        cases e <;> simp [overlayStep, hc, h0] <;> split_ifs <;> simp [h0]

/-- When every arming check in the run observed a focused canvas, closing
and having fired exactly once coincide at every point of the run. -/
theorem overlayRun_armed_focused :
    ∀ (events : List OverlayEvent) (s : OverlayState),
      (∀ f, OverlayEvent.armCheck f ∈ events → f = true) →
      ((s.closed = true ↔ s.callbackCount = 1) ∧ s.callbackCount ≤ 1) →
      ((events.foldl overlayStep s).closed = true ↔
        (events.foldl overlayStep s).callbackCount = 1) ∧
        (events.foldl overlayStep s).callbackCount ≤ 1 := by
  intro events
  induction events with
  | nil => intro s _ h; exact h
  | cons e rest ih =>
    intro s harm h
    refine ih (overlayStep s e) (fun f hf => harm f (List.mem_cons_of_mem e hf)) ?_
    by_cases hc : s.closed
    · simpa [overlayStep, hc] using h
    · have h0 : s.callbackCount = 0 := by
        rcases Nat.lt_or_ge s.callbackCount 1 with h' | h'
        · omega
        · exact absurd (h.1.mpr (by omega)) (by simp [hc])
      cases e with
      | armCheck f =>
        have : f = true := harm f (List.mem_cons_self _ _)
        subst this
        simp [overlayStep, hc, h0]
      | focusEvent f =>
        simp only [overlayStep, if_neg (by simp [hc] : ¬(OverlayState.closed s = true))]
        split_ifs <;> simp [hc, h0]
      | keyEvent down key =>
        simp only [overlayStep, if_neg (by simp [hc] : ¬(OverlayState.closed s = true))]
        split_ifs <;> simp [hc, h0]

/-- C4 counterexample: an overlay whose canvas is unfocused when the
1-second arming check fires is destroyed by that check WITHOUT the result
callback being invoked — it reaches the closed state with the callback
fired zero times, refuting "never zero times". -/
theorem c4_arming_check_closes_without_callback :
    (runOverlay [.armCheck false]).closed = true ∧
    (runOverlay [.armCheck false]).callbackCount = 0 := by
  decide

/-- C4 (amended): across every event sequence the result callback fires at
most once and never before the overlay closes; and whenever the overlay
closes through its focus or key handlers — i.e. in every run whose arming
checks all saw a focused canvas — it fires exactly once.  The only closing
path that skips the callback is the arming check destroying an unfocused
overlay. -/
theorem c4_callback_once_unless_arming_destroy (events : List OverlayEvent) :
    (runOverlay events).callbackCount ≤ 1 ∧
    ((runOverlay events).closed = false → (runOverlay events).callbackCount = 0) ∧
    ((∀ f, OverlayEvent.armCheck f ∈ events → f = true) →
      ((runOverlay events).closed = true ↔ (runOverlay events).callbackCount = 1)) := by
  have h1 := overlayRun_at_most_once events initOverlay (by simp [initOverlay])
    (by simp [initOverlay])
  refine ⟨h1.1, h1.2, fun harm => ?_⟩
  exact (overlayRun_armed_focused events initOverlay harm (by simp [initOverlay])).1

/-- C4 witness: a run closed by an Escape key-up fires the callback exactly
once. -/
theorem c4_witness :
    (runOverlay [.keyEvent false "Escape"]).callbackCount = 1 :=
  ((c4_callback_once_unless_arming_destroy [.keyEvent false "Escape"]).2.2
    (by decide)).mp (by decide)

/-- An empty slice: `l[a:a]` is `[]`. -/
theorem listSlice_self (l : List α) (a : Nat) : listSlice l a a = [] := by
  unfold listSlice
  apply List.drop_eq_nil_of_le
  rw [List.length_take]
  exact min_le_left _ _

/-- C8 counterexample: a zero-AREA region does not always produce an absent
cropped image.  For a normalised region of width 0 and height 5 inside a
10×10 screenshot the row slice has 5 (empty) rows, so `len(arr) == 0` is
false and `_get_cropped_image` builds a degenerate image instead of
returning `None`. -/
theorem c8_zero_width_crop_present :
    getCroppedImage (List.replicate 10 (List.replicate 10 0)) (some ⟨2, 3, 0, 5⟩) =
      some (List.replicate 5 []) ∧
    (getRegion ⟨2, 3, 0, 5⟩).width * (getRegion ⟨2, 3, 0, 5⟩).height = 0 := by
  decide

/-- C8 (amended): only the zero-ROW case is treated as "no result": when the
normalised height is 0 the cropped image is `None` and the self-match search
yields no matches without calling the locate API; when the normalised width
is 0 but the row slice is non-empty, a degenerate image whose rows are all
empty is built and handed to the locate API instead. -/
theorem c8_zero_area_crop_cases (img : List (List Nat)) (hr : TalonRect)
    (locateInImage : List (List Nat) → List (List Nat) → List TalonRect) :
    ((getRegion hr).height = 0 →
      getCroppedImage img (some hr) = none ∧
      findMatches locateInImage img (some hr) = []) ∧
    ((getRegion hr).width = 0 →
      ∀ rows, getCroppedImage img (some hr) = some rows → ∀ row ∈ rows, row = []) := by
  constructor
  · intro h
    have hnone : getCroppedImage img (some hr) = none := by
      unfold getCroppedImage
      simp [h, listSlice_self]
    refine ⟨hnone, ?_⟩
    unfold findMatches
    rw [hnone]
  · intro h rows hrows row hrow
    unfold getCroppedImage at hrows
    simp only [h, add_zero, listSlice_self] at hrows
    split_ifs at hrows with hlen
    · have heq := Option.some.inj hrows
      rw [← heq] at hrow
      obtain ⟨r', hr', hfr⟩ := List.mem_map.mp hrow
      exact hfr.symm

/-- C8 witness: a region of height 0 crops to `None` and the search is
short-circuited to the empty match list even for a locate function that
would return matches. -/
theorem c8_witness :
    getCroppedImage [[1, 2], [3, 4]] (some ⟨0, 0, 2, 0⟩) = none ∧
    findMatches (fun _ _ => [⟨0, 0, 1, 1⟩]) [[1, 2], [3, 4]] (some ⟨0, 0, 2, 0⟩) = [] :=
  (c8_zero_area_crop_cases [[1, 2], [3, 4]] ⟨0, 0, 2, 0⟩ (fun _ _ => [⟨0, 0, 1, 1⟩])).1
    (by decide)

/-- C2 counterexample: matches (30,5) and (1,50) (both 10×10), cursor at
(25,10), offsets 0, search rectangle at the origin.  The reference point is
(20,5) and BOTH matches lie strictly after it in reading order; the first
qualifying match in reading order is (30,5), whose pointer target is
(35,10), but the code moves to (6,55) — the centre of (1,50) — because the
filtered list inherits the (x, y) sort instead of reading order. -/
theorem c2_not_reading_order_first :
    mouseDisambiguate false [⟨30, 5, 10, 10⟩, ⟨1, 50, 10, 10⟩] 25 10 0 0 0 0 =
      .moveTo 6 55 ∧
    MoveOutcome.moveTo 6 55 ≠ .moveTo 35 10 ∧
    afterRef 20 5 ⟨30, 5, 10, 10⟩ = true ∧
    afterRef 20 5 ⟨1, 50, 10, 10⟩ = true ∧
    readingLe ⟨30, 5, 10, 10⟩ ⟨1, 50, 10, 10⟩ ∧
    ¬ readingLe ⟨1, 50, 10, 10⟩ ⟨30, 5, 10, 10⟩ := by
  decide

/-- C2 (amended): the `"mouse"` disambiguator computes the reference point
by shifting the cursor back by the caller-supplied offset and half the first
sorted match's width/height (with the `ceil` making it a floor of the half),
and then selects — among the matches strictly after that point in reading
order — the one MINIMAL IN THE (x, y) SORT ORDER, not the first in reading
order; when no match qualifies the result is absent and the pointer is not
moved. -/
theorem c2_mouse_selects_xy_minimal_qualifying
    (ms : List MatchRect) (mouseX mouseY xoffset yoffset rectX rectY : Int)
    (m0 : MatchRect) (h0 : (sortMatches ms).head? = some m0)
    (xnorm ynorm : Int)
    (hx : xnorm = mouseX - xoffset - ((m0.width / 2 : Nat) : Int))
    (hy : ynorm = mouseY - yoffset - ((m0.height / 2 : Nat) : Int)) :
    ((∀ m ∈ ms, afterRef xnorm ynorm m = false) ↔
      mouseSelect ms mouseX mouseY xoffset yoffset = none) ∧
    (mouseSelect ms mouseX mouseY xoffset yoffset = none →
      mouseDisambiguate false ms mouseX mouseY xoffset yoffset rectX rectY = .noMove) ∧
    (∀ sel, mouseSelect ms mouseX mouseY xoffset yoffset = some sel →
      sel ∈ ms ∧ afterRef xnorm ynorm sel = true ∧
      (∀ m' ∈ ms, afterRef xnorm ynorm m' = true → xyLe sel m') ∧
      mouseDisambiguate false ms mouseX mouseY xoffset yoffset rectX rectY =
        .moveTo (matchTarget rectX rectY xoffset yoffset sel).1
                (matchTarget rectX rectY xoffset yoffset sel).2) := by
  obtain ⟨tail, hL⟩ : ∃ t, sortMatches ms = m0 :: t := by
    cases hs : sortMatches ms with
    | nil => rw [hs] at h0; cases h0
    | cons a t =>
      rw [hs, List.head?_cons] at h0
      exact ⟨t, by rw [Option.some.inj h0]⟩
  have hperm : (sortMatches ms).Perm ms := List.perm_insertionSort xyLe ms
  have hmem : ∀ m : MatchRect, m ∈ sortMatches ms ↔ m ∈ ms := fun m => hperm.mem_iff
  have hpair : List.Pairwise xyLe (sortMatches ms) := List.sorted_insertionSort xyLe ms
  have hsel_eq : mouseSelect ms mouseX mouseY xoffset yoffset =
      ((sortMatches ms).filter (afterRef xnorm ynorm)).head? := by
    unfold mouseSelect
    rw [hL]
    dsimp only
    rw [← hx, ← hy]
  refine ⟨?_, ?_, ?_⟩
  · constructor
    · intro h
      rw [hsel_eq]
      have hnil : (sortMatches ms).filter (afterRef xnorm ynorm) = [] := by
        rw [List.filter_eq_nil_iff]
        intro a ha
        simp [h a ((hmem a).mp ha)]
      rw [hnil]
      rfl
    · intro h m hm
      rw [hsel_eq] at h
      cases hfil : (sortMatches ms).filter (afterRef xnorm ynorm) with
      | nil =>
        by_contra hne
        have hmf : m ∈ (sortMatches ms).filter (afterRef xnorm ynorm) :=
          List.mem_filter.mpr ⟨(hmem m).mpr hm, by simpa using hne⟩
        rw [hfil] at hmf
        cases hmf
      | cons a t => rw [hfil, List.head?_cons] at h; cases h
  · intro h
    unfold mouseDisambiguate
    rw [hL, h]
    rfl
  · intro sel hsel
    have hfil_head : ((sortMatches ms).filter (afterRef xnorm ynorm)).head? = some sel := by
      rw [← hsel_eq]; exact hsel
    cases hfil : (sortMatches ms).filter (afterRef xnorm ynorm) with
    | nil => rw [hfil] at hfil_head; cases hfil_head
    | cons a rest =>
      rw [hfil, List.head?_cons] at hfil_head
      rw [Option.some.inj hfil_head] at hfil
      have hself : sel ∈ (sortMatches ms).filter (afterRef xnorm ynorm) := by
        rw [hfil]; exact List.mem_cons_self _ _
      obtain ⟨hselmem, hselaft⟩ := List.mem_filter.mp hself
      have hpair_fil : List.Pairwise xyLe ((sortMatches ms).filter (afterRef xnorm ynorm)) :=
        List.Pairwise.sublist (List.filter_sublist _) hpair
      rw [hfil, List.pairwise_cons] at hpair_fil
      refine ⟨(hmem sel).mp hselmem, hselaft, ?_, ?_⟩
      · intro m' hm' haft
        have hmf : m' ∈ (sortMatches ms).filter (afterRef xnorm ynorm) :=
          List.mem_filter.mpr ⟨(hmem m').mpr hm', haft⟩
        rw [hfil] at hmf
        rcases List.mem_cons.mp hmf with h' | h'
        · rw [h']
          exact Or.inr ⟨rfl, le_refl _⟩
        · exact hpair_fil.1 m' h'
      · unfold mouseDisambiguate
        rw [hL, hsel]

/-- C2 witness: at the counterexample's input the selected match (1,50) is a
member of the match list and is (x, y)-minimal among the qualifying
matches, in particular (x, y)-below the reading-order-first match (30,5). -/
theorem c2_witness :
    xyLe ⟨1, 50, 10, 10⟩ ⟨30, 5, 10, 10⟩ :=
  ((c2_mouse_selects_xy_minimal_qualifying
      [⟨30, 5, 10, 10⟩, ⟨1, 50, 10, 10⟩] 25 10 0 0 0 0
      ⟨1, 50, 10, 10⟩ (by decide) 20 5 (by decide) (by decide)).2.2
    ⟨1, 50, 10, 10⟩ (by decide)).2.2.1 ⟨30, 5, 10, 10⟩ (by decide) (by decide)

/-- C3 counterexample: (i) for the 2-match list [(30,5), (1,50)] (10×10) and
index 0 the code moves to (6,55), the centre of (1,50) — the 0th match of
the (x, y)-sorted list — whereas the 0th match in reading order is (30,5)
with pointer target (35,10); (ii) for a 1-match list the out-of-range index
−1 does not yield absent: Python's negative indexing selects the last match
and the pointer moves. -/
theorem c3_not_reading_order_and_negative_index :
    indexDisambiguate [⟨30, 5, 10, 10⟩, ⟨1, 50, 10, 10⟩] 0 0 0 0 0 = .moveTo 6 55 ∧
    MoveOutcome.moveTo 6 55 ≠ .moveTo 35 10 ∧
    indexDisambiguate [⟨0, 0, 10, 10⟩] (-1) 0 0 0 0 = .moveTo 5 5 ∧
    MoveOutcome.moveTo 5 5 ≠ .noMove := by
  decide

/-- C3 (amended): with `n = len(matches)`, an integer disambiguator `i`
moves the pointer to the i-th match of the (x, y)-ASCENDING-sorted list when
`0 ≤ i < n`; is a no-op when `i ≥ n`; moves to match `n + i` (Python
negative indexing) when `-n ≤ i < 0`; raises an uncaught `IndexError` when
`i < -n` and at least one match exists; and is a no-op for every `i` when no
match exists at all (the `len(sorted_matches) == 0` early return). -/
theorem c3_index_selection_cases (ms : List MatchRect)
    (d xoffset yoffset rectX rectY : Int) :
    ((ms.length : Int) ≤ d →
      indexDisambiguate ms d xoffset yoffset rectX rectY = .noMove) ∧
    (0 ≤ d → d < (ms.length : Int) →
      ∃ m, (sortMatches ms)[d.toNat]? = some m ∧ m ∈ ms ∧
        indexDisambiguate ms d xoffset yoffset rectX rectY =
          .moveTo (matchTarget rectX rectY xoffset yoffset m).1
                  (matchTarget rectX rectY xoffset yoffset m).2) ∧
    (-(ms.length : Int) ≤ d → d < 0 →
      ∃ m, (sortMatches ms)[((ms.length : Int) + d).toNat]? = some m ∧ m ∈ ms ∧
        indexDisambiguate ms d xoffset yoffset rectX rectY =
          .moveTo (matchTarget rectX rectY xoffset yoffset m).1
                  (matchTarget rectX rectY xoffset yoffset m).2) ∧
    (ms ≠ [] → d < -(ms.length : Int) →
      indexDisambiguate ms d xoffset yoffset rectX rectY = .indexError) ∧
    (ms = [] →
      indexDisambiguate ms d xoffset yoffset rectX rectY = .noMove) := by
  have hperm : (sortMatches ms).Perm ms := List.perm_insertionSort xyLe ms
  have hlen : (sortMatches ms).length = ms.length := hperm.length_eq
  refine ⟨?_, ?_, ?_, ?_, ?_⟩
  · intro h
    unfold indexDisambiguate
    by_cases he : (sortMatches ms).length = 0
    · rw [if_pos he]
    · rw [if_neg he, if_pos h]
  · intro h1 h2
    have he : ¬((sortMatches ms).length = 0) := by omega
    have hguard : ¬((ms.length : Int) ≤ d) := by omega
    have hidx : d.toNat < (sortMatches ms).length := by omega
    refine ⟨(sortMatches ms)[d.toNat], List.getElem?_eq_getElem hidx,
      hperm.mem_iff.mp (List.getElem_mem hidx), ?_⟩
    unfold indexDisambiguate pyListGet
    rw [if_neg he, if_neg hguard, if_pos h1, List.getElem?_eq_getElem hidx]
  · intro h1 h2
    have he : ¬((sortMatches ms).length = 0) := by omega
    have hguard : ¬((ms.length : Int) ≤ d) := by omega
    have hneg : ¬(0 ≤ d) := by omega
    have hj : (0 : Int) ≤ ((sortMatches ms).length : Int) + d := by omega
    have hidx : (((sortMatches ms).length : Int) + d).toNat < (sortMatches ms).length := by
      omega
    have hsame : (((ms.length : Int) + d)).toNat = (((sortMatches ms).length : Int) + d).toNat := by
      omega
    refine ⟨(sortMatches ms)[(((sortMatches ms).length : Int) + d).toNat], ?_,
      hperm.mem_iff.mp (List.getElem_mem hidx), ?_⟩
    · rw [hsame]
      exact List.getElem?_eq_getElem hidx
    · unfold indexDisambiguate pyListGet
      rw [if_neg he, if_neg hguard, if_neg hneg]
      dsimp only
      rw [if_pos hj, List.getElem?_eq_getElem hidx]
  · intro hne h
    have hne' : ms.length ≠ 0 := by
      cases ms with
      | nil => exact absurd rfl hne
      | cons a t => simp
    have he : ¬((sortMatches ms).length = 0) := by omega
    have hguard : ¬((ms.length : Int) ≤ d) := by omega
    have hneg : ¬(0 ≤ d) := by omega
    have hj : ¬((0 : Int) ≤ ((sortMatches ms).length : Int) + d) := by omega
    unfold indexDisambiguate pyListGet
    rw [if_neg he, if_neg hguard, if_neg hneg]
    dsimp only
    rw [if_neg hj]
  · intro h
    subst h
    rfl

/-- C3 witness: the claim's own in-range/out-of-range example — a 1-match
list with index 5 yields no move. -/
theorem c3_witness :
    indexDisambiguate [⟨0, 0, 2, 2⟩] 5 0 0 0 0 = .noMove :=
  (c3_index_selection_cases [⟨0, 0, 2, 2⟩] 5 0 0 0 0).1 (by decide)
